import Mathlib

/-!
Shallow embedding of the radiozoa address configurator and ranging engine
(src/radiozoa of tinys3-i2c-target), with theorems checking the
specification's claims. Pure code is translated to Lean functions; bus and
pin effects are recorded as explicit event traces; exceptions are Except;
the bus and the per-device hardware behaviour are oracles passed in as
function arguments.
-/

/-- A record of device.py: table index 0..7, impl (driver class name, or
none when the slot holds no sensor), label, target bus address, XSHUT pin. -/
structure Device where
  index : Nat
  impl : Option String
  label : String
  i2c_address : Nat
  xshut : Nat
deriving DecidableEq, Repr

/-- The instances declared at the bottom of device.py, in registry order. -/
def N0 : Device := ⟨0, some ("VL53L1X"), "N0", 0x30, 3⟩

def NE1 : Device := ⟨1, some ("VL53L1X"), "NE1", 0x31, 35⟩

def E2 : Device := ⟨2, some ("VL53L1X"), "E2", 0x32, 2⟩

def SE3 : Device := ⟨3, some ("VL53L1X"), "SE3", 0x33, 36⟩

def S4 : Device := ⟨4, some ("VL53L1X"), "S4", 0x34, 1⟩

def SW5 : Device := ⟨5, some ("VL53L1X"), "SW5", 0x35, 37⟩

def W6 : Device := ⟨6, some ("VL53L1X"), "W6", 0x36, 0⟩

def NW7 : Device := ⟨7, some ("VL53L1X"), "NW7", 0x37, 43⟩

/-- Device.all(): the registry accumulated by the eight instantiations. -/
def Device.all : List Device := [N0, NE1, E2, SE3, S4, SW5, W6, NW7]

/-- Observable effects of the configurator and of the ranging loop: XSHUT pin
writes, delays, bus scans, address-change bus writes, log output and LED
colour pushes. -/
inductive Event where
  | pinSet (index : Nat) (value : Bool)
  | sleep (ms : Nat)
  | scan
  | i2cdetect
  | addrWrite (impl : String) (newAddr : Nat)
  | logWarning (msg : String)
  | logError (msg : String)
  | logMissing (addrs : List Nat)
  | setColor (pixel : Int) (color : Int × Int × Int)
deriving DecidableEq, Repr

/-- The hardware environment of one device's bring-up: whether the bus scan
at retry attempt i shows the factory address 0x29, whether the temporary
driver construction at 0x29 raises, and whether the address-change bus write
raises. -/
structure DeviceEnv where
  appears : Nat → Bool
  createRaises : Bool
  writeRaises : Bool

/-- RadiozoaConfig._setup_pins: an XSHUT pin is configured for every device
slot whose impl is not None. -/
def setup_pins (devices : List Device) : List Nat :=
  (devices.filter (fun d => d.impl.isSome)).map (fun d => d.index)

/-- RadiozoaConfig._set_xshut: drive the XSHUT pin of a device, raising
RuntimeError when no pin was configured for that device index. -/
def set_xshut (pins : List Nat) (device_index : Nat) (value : Bool) :
    Except String (List Event) :=
  if device_index ∈ pins then Except.ok [Event.pinSet device_index value]
  else Except.error ("pin not available for device " ++ toString device_index)

/-- RadiozoaConfig._shutdown_all_sensors: set XSHUT low for every device whose
impl is not None, with a 50 ms settle delay after each toggle. -/
def shutdown_all_sensors (pins : List Nat) : List Device → Except String (List Event)
  | [] => Except.ok []
  | d :: rest =>
    if d.impl.isSome then
      match set_xshut pins d.index false with
      | Except.error e => Except.error e
      | Except.ok evs =>
        match shutdown_all_sensors pins rest with
        | Except.error e => Except.error e
        | Except.ok evsRest => Except.ok (evs ++ [Event.sleep 50] ++ evsRest)
    else shutdown_all_sensors pins rest

/-- The bounded retry loop inside RadiozoaConfig._configure_sensor_addresses:
for i in range(fuel): sleep 750 ms, rescan the bus, stop as soon as 0x29
responds. Returns the sleep/scan trace and whether 0x29 was observed. -/
def poll_for_default (appears : Nat → Bool) : Nat → Nat → List Event × Bool
  | 0, _ => ([], false)
  | fuel + 1, i =>
    if appears i then ([Event.sleep 750, Event.scan], true)
    else
      let r := poll_for_default appears fuel (i + 1)
      (Event.sleep 750 :: Event.scan :: r.1, r.2)

/-- RadiozoaConfig._set_i2c_address: the variant-specific address-change
write issued at the factory address 0x29 (VL53L1X: selector bytes 0x00 0x01
then the new address; VL53L0X: register 0x8A), each followed by a 50 ms
settle delay; the physical bus write may raise. -/
def set_i2c_address (e : DeviceEnv) (impl : Option String) (new_addr : Nat) :
    Except String (List Event) :=
  if impl = some ("VL53L1X") then
    if e.writeRaises then Except.error ("OSError during i2c write")
    else Except.ok [Event.addrWrite ("VL53L1X") new_addr, Event.sleep 50]
  else if impl = some ("VL53L0X") then
    if e.writeRaises then Except.error ("OSError during i2c write")
    else Except.ok [Event.addrWrite ("VL53L0X") new_addr, Event.sleep 50]
  else if impl = none then Except.ok []
  else Except.error ("unknown sensor type")

/-- The body of the per-device loop of
RadiozoaConfig._configure_sensor_addresses: skip an empty slot; otherwise
drive XSHUT high, poll up to five times for 0x29; if never observed log a
warning and move on; otherwise create the temporary driver and issue the
address-change write inside a try block whose except handler logs the
exception; a 250 ms delay ends the attempt (skipped when the impl is
unknown, whose branch logs a warning and continues). -/
def configure_one_device (pins : List Nat) (e : DeviceEnv) (d : Device) :
    Except String (List Event) :=
  match d.impl with
  | none => Except.ok []
  | some impl =>
    match set_xshut pins d.index true with
    | Except.error err => Except.error err
    | Except.ok pinEvs =>
      let poll := poll_for_default e.appears 5 0
      if poll.2 = false then
        Except.ok (pinEvs ++ poll.1 ++ [Event.logWarning (d.label ++ " did not appear at 0x29")])
      else
        if impl = "VL53L0X" ∨ impl = "VL53L1X" then
          match (if e.createRaises then Except.error ("exception creating sensor")
                 else set_i2c_address e (some impl) d.i2c_address : Except String (List Event)) with
          | Except.ok wEvs => Except.ok (pinEvs ++ poll.1 ++ wEvs ++ [Event.sleep 250])
          | Except.error msg => Except.ok (pinEvs ++ poll.1 ++ [Event.logError msg, Event.sleep 250])
        else
          Except.ok (pinEvs ++ poll.1 ++ [Event.logWarning ("unknown sensor type " ++ impl)])

/-- RadiozoaConfig._configure_sensor_addresses: process every device of the
table sequentially, in table order. -/
def configure_sensor_addresses (pins : List Nat) (env : Nat → DeviceEnv) :
    List Device → Except String (List Event)
  | [] => Except.ok []
  | d :: rest =>
    match configure_one_device pins (env d.index) d with
    | Except.error e => Except.error e
    | Except.ok evs =>
      match configure_sensor_addresses pins env rest with
      | Except.error e => Except.error e
      | Except.ok evsRest => Except.ok (evs ++ evsRest)

/-- RadiozoaConfig.configure: the shutdown-all phase followed by the
sequential bring-up and reprogram phase. -/
def RadiozoaConfig.configure (env : Nat → DeviceEnv) (devices : List Device) :
    Except String (List Event) :=
  match shutdown_all_sensors (setup_pins devices) devices with
  | Except.error e => Except.error e
  | Except.ok evs1 =>
    match configure_sensor_addresses (setup_pins devices) env devices with
    | Except.error e => Except.error e
    | Except.ok evs2 => Except.ok (evs1 ++ evs2)

/-- Configure.configure's per-table list of target sensor addresses. -/
def sensor_addresses (devices : List Device) : List Nat :=
  devices.map (fun d => d.i2c_address)

/-- The shared factory default address. -/
def default_i2c_address : Nat := 0x29

/-- The target addresses a bus scan does not show. -/
def sensor_missing (devices : List Device) (bus : Nat → Bool) : List Nat :=
  (sensor_addresses devices).filter (fun a => ! bus a)

/-- The body of Configure.configure's outer try block. bus1 is what the
initial scan shows, bus2 what the re-scan after reconfiguration shows;
reconfigRaises models an exception escaping RadiozoaConfig construction or
configuration, which the inner handler logs and re-raises. -/
def Configure.configure_inner (force : Bool) (devices : List Device)
    (bus1 : Nat → Bool) (reconfigRaises : Bool) (env : Nat → DeviceEnv)
    (bus2 : Nat → Bool) : Except String (Bool × List Event) :=
  let has_default := bus1 default_i2c_address
  let missing := sensor_missing devices bus1
  if force = true ∨ has_default = true ∨ missing ≠ [] then
    if reconfigRaises then Except.error ("exception during RadiozoaConfig configuration")
    else
      match RadiozoaConfig.configure env devices with
      | Except.error e => Except.error e
      | Except.ok evs =>
        let has_default2 := bus2 default_i2c_address
        let missing2 := sensor_missing devices bus2
        if has_default2 = true then
          Except.ok (false, Event.scan :: Event.i2cdetect :: evs
            ++ [Event.sleep 1000, Event.scan, Event.i2cdetect])
        else if missing2 ≠ [] then
          Except.ok (false, Event.scan :: Event.i2cdetect :: evs
            ++ [Event.sleep 1000, Event.scan, Event.logMissing missing2, Event.i2cdetect])
        else
          Except.ok (true, Event.scan :: Event.i2cdetect :: evs
            ++ [Event.sleep 1000, Event.scan, Event.i2cdetect])
  else Except.ok (true, [Event.scan, Event.i2cdetect])

/-- Configure.configure: the top-level operation; its outer except handler
turns any exception into a False result, so the caller always gets a
boolean. -/
def Configure.configure (force : Bool) (devices : List Device)
    (bus1 : Nat → Bool) (reconfigRaises : Bool) (env : Nat → DeviceEnv)
    (bus2 : Nat → Bool) : Bool × List Event :=
  match Configure.configure_inner force devices bus1 reconfigRaises env bus2 with
  | Except.ok r => r
  | Except.error _ => (false, [])

/-- Recognizer for XSHUT pin toggle events. -/
def is_pin_set : Event → Bool
  | Event.pinSet _ _ => true
  | _ => false

/-- Recognizer for address-change bus write events. -/
def is_addr_write : Event → Bool
  | Event.addrWrite _ _ => true
  | _ => false

/-- Recognizer for bus scan events. -/
def is_scan_event : Event → Bool
  | Event.scan => true
  | _ => false

/-- Recognizer for the fixed 750 ms retry delay events. -/
def is_sleep750 : Event → Bool
  | Event.sleep 750 => true
  | _ => false

/-- Sensor.OUT_OF_RANGE: the reserved sentinel reading. -/
def OUT_OF_RANGE : Int := 9999

/-- Sensor.SENSOR_COUNT. -/
def SENSOR_COUNT : Nat := 8

/-- RadiozoaSensor._distance_offset: the fixed calibration offset in mm. -/
def distance_offset : Int := 50

/-- Sensor._min_distance_mm: the near-field floor. -/
def min_distance_mm : Int := 50

/-- Sensor._max_short_range_distance_mm. -/
def max_short_range_distance_mm : Int := 1000

/-- Sensor._max_long_range_distance_mm. -/
def max_long_range_distance_mm : Int := 4000

/-- An abstract per-device driver handle: its read() either yields the raw
measured distance or raises. -/
structure SensorHandle where
  read : Except String Int

/-- The names radiozoa_sensor.py binds at module level: its imports (time,
machine's I2C, colorama's Fore and Style, Logger and Level, Cardinal, Device,
VL53L0X, VL53L1X) and its own class RadiozoaSensor. The name Sensor is not
among them. -/
def radiozoa_sensor_module_names : List String :=
  ["time", "I2C", "Fore", "Style", "Logger", "Level", "Cardinal", "Device",
   "VL53L0X", "VL53L1X", "RadiozoaSensor"]

/-- Python name lookup in radiozoa_sensor.py's module namespace. -/
def lookup_module_name (n : String) : Except String Unit :=
  if n ∈ radiozoa_sensor_module_names then Except.ok ()
  else Except.error ("NameError: name " ++ n ++ " is not defined")

/-- The expression Sensor.OUT_OF_RANGE as radiozoa_sensor.py evaluates it:
look up the module-level name Sensor, then take its OUT_OF_RANGE attribute. -/
def sentinel_expr : Except String Int :=
  match lookup_module_name ("Sensor") with
  | Except.ok _ => Except.ok OUT_OF_RANGE
  | Except.error e => Except.error e

/-- RadiozoaSensor.get_distance: read one sensor, subtract the distance
offset, floor at zero; an absent handle or a raising read falls into the
branch that returns Sensor.OUT_OF_RANGE. Positions are the Cardinal registry
indices 0..7. -/
def RadiozoaSensor.get_distance (sensors : Nat → Option SensorHandle)
    (cardinal : Nat) : Except String Int :=
  match sensors cardinal with
  | some s =>
    match s.read with
    | Except.ok r => Except.ok (max 0 (r - distance_offset))
    | Except.error _ => sentinel_expr
  | none => sentinel_expr

/-- Modelled from the spec: cardinal.py is not under src; the Cardinal
registry is the fixed ordered table of the eight positions (Device Table,
index 0..7, section 3 and section 4.1 of the spec). -/
def cardinal_registry : List Nat := List.range 8

/-- The loop of RadiozoaSensor.get_distances with cardinals=None: append the
offset-corrected reading, or append Sensor.OUT_OF_RANGE for an absent handle
or a raising read. -/
def RadiozoaSensor.get_distances_loop (sensors : Nat → Option SensorHandle) :
    List Nat → Except String (List Int)
  | [] => Except.ok []
  | c :: rest =>
    match sensors c with
    | some s =>
      match s.read with
      | Except.ok r =>
        match RadiozoaSensor.get_distances_loop sensors rest with
        | Except.error e => Except.error e
        | Except.ok ds => Except.ok (max 0 (r - distance_offset) :: ds)
      | Except.error _ =>
        match sentinel_expr with
        | Except.error e => Except.error e
        | Except.ok v =>
          match RadiozoaSensor.get_distances_loop sensors rest with
          | Except.error e => Except.error e
          | Except.ok ds => Except.ok (v :: ds)
    | none =>
      match sentinel_expr with
      | Except.error e => Except.error e
      | Except.ok v =>
        match RadiozoaSensor.get_distances_loop sensors rest with
        | Except.error e => Except.error e
        | Except.ok ds => Except.ok (v :: ds)

/-- RadiozoaSensor.get_distances (no argument): all eight readings in
Cardinal registry order. -/
def RadiozoaSensor.get_distances (sensors : Nat → Option SensorHandle) :
    Except String (List Int) :=
  RadiozoaSensor.get_distances_loop sensors cardinal_registry

/-- Python int(): truncation toward zero, over exact rationals. -/
def pyInt (q : ℚ) : Int := if q < 0 then -Int.floor (-q) else Int.floor q

/-- Sensor._hsv_to_rgb over exact rationals: Python float mod is floored
mod, float floor-division is the floor, int() truncates. -/
def hsv_to_rgb (h s v : ℚ) : Int × Int × Int :=
  if s = 0 then
    (pyInt (v * 255), pyInt (v * 255), pyInt (v * 255))
  else
    let hm := h - 360 * ((Int.floor (h / 360) : Int) : ℚ)
    let hsector : Int := Int.floor (hm / 60)
    let f := hm / 60 - (hsector : ℚ)
    let p := v * (1 - s)
    let q := v * (1 - s * f)
    let t := v * (1 - s * (1 - f))
    let rgb : ℚ × ℚ × ℚ :=
      if hsector = 0 then (v, t, p)
      else if hsector = 1 then (q, v, p)
      else if hsector = 2 then (p, v, t)
      else if hsector = 3 then (p, q, v)
      else if hsector = 4 then (t, p, v)
      else (v, p, q)
    (pyInt (rgb.1 * 255), pyInt (rgb.2.1 * 255), pyInt (rgb.2.2 * 255))

/-- Sensor._color_for_distance: a None or above-maximum reading is folded to
the maximum (or blanked when folding is off); a reading at or below the
near-field floor forces (255, 0, 0); otherwise the reading maps linearly to
a hue in 0..300 degrees at full saturation and value. -/
def color_for_distance (return_max_range : Bool) (distance0 : Option Int)
    (max_distance_mm : Int) : Int × Int × Int :=
  let clamped : Option Int :=
    match distance0 with
    | none => if return_max_range then some max_distance_mm else none
    | some d =>
      if d > max_distance_mm then (if return_max_range then some max_distance_mm else none)
      else some d
  match clamped with
  | none => (0, 0, 0)
  | some d =>
    if d ≤ min_distance_mm then (255, 0, 0)
    else hsv_to_rgb ((d : ℚ) / (max_distance_mm : ℚ) * 300) 1 1

/-- The mutable state of Sensor (sensor.py). -/
structure SensorState where
  enabled : Bool
  poll_delay_ms : Int
  return_max_range : Bool
  distances : List Int
  distances_fmt : String
  distances_packed : String

/-- Sensor.__init__ field values. pack_message (message_util, an external
collaborator whose framing is out of the core's scope) is passed in as a
function argument. -/
def sensor_init (pack_message : String → String) : SensorState :=
  let fmt := String.intercalate " " (List.replicate SENSOR_COUNT (toString OUT_OF_RANGE))
  { enabled := false
    poll_delay_ms := 50
    return_max_range := true
    distances := List.replicate SENSOR_COUNT OUT_OF_RANGE
    distances_fmt := fmt
    distances_packed := pack_message fmt }

/-- The Sensor.distances property: raises IllegalStateError while the loop
is not enabled, otherwise returns the stored tuple. -/
def Sensor.distances (st : SensorState) : Except String (List Int) :=
  if st.enabled = false then Except.error ("IllegalStateError: sensor not enabled")
  else Except.ok st.distances

/-- The Sensor.distances_fmt property, with the same illegal-state guard. -/
def Sensor.distances_fmt (st : SensorState) : Except String String :=
  if st.enabled = false then Except.error ("IllegalStateError: sensor not enabled")
  else Except.ok st.distances_fmt

/-- The Sensor.distances_packed property, with the same illegal-state guard. -/
def Sensor.distances_packed (st : SensorState) : Except String String :=
  if st.enabled = false then Except.error ("IllegalStateError: sensor not enabled")
  else Except.ok st.distances_packed

/-- Sensor.set_poll_rate_hz: validate the 0.5..50 Hz range first, raising
ValueError outside it, then store int(1000 / rate) ms. Returns the raised
or normal outcome together with the state after the call. -/
def Sensor.set_poll_rate_hz (st : SensorState) (rate_hz : ℚ) :
    Except String Unit × SensorState :=
  if ¬ (1/2 ≤ rate_hz ∧ rate_hz ≤ 50) then
    (Except.error ("rate_hz must be between 0.5 and 50 Hz"), st)
  else
    (Except.ok (), { st with poll_delay_ms := pyInt (1000 / rate_hz) })

/-- Sensor.disable: clear the enabled flag (and cancel the task) when
enabled; a no-op otherwise. -/
def Sensor.disable (st : SensorState) : SensorState :=
  if st.enabled then { st with enabled := false } else st

/-- Python "{:04d}".format as used for the distance string. -/
def format04 (n : Int) : String :=
  let s := toString n.natAbs
  let width := if n < 0 then 3 else 4
  let pad := String.mk (List.replicate (width - s.length) '0')
  (if n < 0 then "-" else "") ++ pad ++ s

/-- Python repr of an impl field, as interpolated into the ValueError
message of Sensor._poll_loop. -/
def impl_repr : Option String → String
  | none => "None"
  | some s => s

/-- The per-sensor body of Sensor._poll_loop's iteration over
enumerate(distances): look the index up in the device table, dispatch on the
entry's impl to pick the variant maximum, compute the colour and push it to
the LED ring at the pixel derived from the position; an unrecognised impl
raises ValueError and a missing table entry raises KeyError, aborting the
remainder of the iteration. Returns the events up to any exception, and the
exception if one was raised. -/
def poll_devices (device_by_index : Nat → Option Device) (pixel_of : Nat → Int)
    (return_max_range : Bool) : List (Nat × Int) → List Event × Option String
  | [] => ([], none)
  | (index, dist) :: rest =>
    match device_by_index index with
    | none => ([], some ("KeyError: " ++ toString index))
    | some dev =>
      if dev.impl = some ("VL53L0X") then
        let c := color_for_distance return_max_range (some dist) max_short_range_distance_mm
        let r := poll_devices device_by_index pixel_of return_max_range rest
        (Event.setColor (pixel_of index - 1) c :: r.1, r.2)
      else if dev.impl = some ("VL53L1X") then
        let c := color_for_distance return_max_range (some dist) max_long_range_distance_mm
        let r := poll_devices device_by_index pixel_of return_max_range rest
        (Event.setColor (pixel_of index - 1) c :: r.1, r.2)
      else
        ([], some ("ValueError: unrecognised sensor type: " ++ impl_repr dev.impl))

/-- One iteration of the while body of Sensor._poll_loop: the try block
batch-reads the distances, stores the tuple, its formatted and packed forms,
then maps every reading to a colour; the except handler logs any exception
raised in the try block and the loop then proceeds to its next iteration.
A missing radiozoa array logs a warning and disables the loop -- the only
self-triggered shutdown. pixel_of is the external position-to-pixel lookup
(Cardinal.from_id(index).pixel). -/
def poll_loop_iteration (device_by_index : Nat → Option Device)
    (pixel_of : Nat → Int) (pack_message : String → String)
    (radiozoa : Option (Nat → Option SensorHandle)) (st : SensorState) :
    SensorState × List Event :=
  match radiozoa with
  | none => (Sensor.disable st, [Event.logWarning ("no radiozoa: disabling")])
  | some sensors =>
    match RadiozoaSensor.get_distances sensors with
    | Except.error msg => (st, [Event.logError msg])
    | Except.ok raw =>
      let fmt := String.intercalate " " (raw.map format04)
      let st2 := { st with distances := raw, distances_fmt := fmt,
                           distances_packed := pack_message fmt }
      let r := poll_devices device_by_index pixel_of st.return_max_range raw.enum
      match r.2 with
      | none => (st2, r.1)
      | some msg => (st2, r.1 ++ [Event.logError msg])

/-- C7: while the ranging loop is disabled, each of the three distance
accessors raises IllegalStateError rather than returning a stale value;
while enabled each returns its stored value without raising. -/
theorem c7_illegal_state_read (st : SensorState) :
    (st.enabled = false →
      Sensor.distances st = Except.error ("IllegalStateError: sensor not enabled") ∧
      Sensor.distances_fmt st = Except.error ("IllegalStateError: sensor not enabled") ∧
      Sensor.distances_packed st = Except.error ("IllegalStateError: sensor not enabled")) ∧
    (st.enabled = true →
      Sensor.distances st = Except.ok st.distances ∧
      Sensor.distances_fmt st = Except.ok st.distances_fmt ∧
      Sensor.distances_packed st = Except.ok st.distances_packed) := by
  constructor <;> intro h <;>
    simp [Sensor.distances, Sensor.distances_fmt, Sensor.distances_packed, h]

/-- C9: the poll-rate setter raises exactly when the rate lies outside the
inclusive range 0.5..50 Hz; inside the range it succeeds and stores
int(1000 / rate) ms, which lies in 20..2000 ms; the default delay is 50 ms. -/
theorem c9_poll_rate_validation (st : SensorState) (rate_hz : ℚ) :
    ((∃ e, (Sensor.set_poll_rate_hz st rate_hz).1 = Except.error e) ↔
        (rate_hz < 1/2 ∨ 50 < rate_hz)) ∧
    (1/2 ≤ rate_hz → rate_hz ≤ 50 →
      (Sensor.set_poll_rate_hz st rate_hz).1 = Except.ok () ∧
      (Sensor.set_poll_rate_hz st rate_hz).2.poll_delay_ms = pyInt (1000 / rate_hz) ∧
      20 ≤ (Sensor.set_poll_rate_hz st rate_hz).2.poll_delay_ms ∧
      (Sensor.set_poll_rate_hz st rate_hz).2.poll_delay_ms ≤ 2000) ∧
    (sensor_init id).poll_delay_ms = 50 := by
  refine ⟨?_, ?_, rfl⟩
  · by_cases h : 1/2 ≤ rate_hz ∧ rate_hz ≤ 50
    · simp only [Sensor.set_poll_rate_hz, not_not.mpr h, if_neg (not_not.mpr h)]
      constructor
      · rintro ⟨e, he⟩
        exact absurd he (by simp)
      · rintro (h1 | h2)
        · exact absurd h.1 (not_le.mpr h1)
        · exact absurd h.2 (not_le.mpr h2)
    · simp only [Sensor.set_poll_rate_hz, if_pos h]
      constructor
      · intro _
        rcases not_and_or.mp h with h1 | h2
        · exact Or.inl (not_le.mp h1)
        · exact Or.inr (not_le.mp h2)
      · intro _
        exact ⟨"rate_hz must be between 0.5 and 50 Hz", rfl⟩
  · intro hlo hhi
    have hpos : (0:ℚ) < rate_hz := lt_of_lt_of_le (by norm_num) hlo
    have hnn : (0:ℚ) ≤ 1000 / rate_hz := by positivity
    have hpy : pyInt (1000 / rate_hz) = Int.floor (1000 / rate_hz) := by
      rw [pyInt, if_neg (not_lt.mpr hnn)]
    have hcond : 1/2 ≤ rate_hz ∧ rate_hz ≤ 50 := ⟨hlo, hhi⟩
    have heq : Sensor.set_poll_rate_hz st rate_hz
        = (Except.ok (), { st with poll_delay_ms := pyInt (1000 / rate_hz) }) := by
      rw [Sensor.set_poll_rate_hz, if_neg (not_not.mpr hcond)]
    refine ⟨by rw [heq], by rw [heq], ?_, ?_⟩
    · rw [heq]
      show (20:Int) ≤ pyInt (1000 / rate_hz)
      rw [hpy, Int.le_floor]
      rw [show (((20:Int)):ℚ) = (20:ℚ) by norm_num, le_div_iff₀ hpos]
      linarith
    · rw [heq]
      show pyInt (1000 / rate_hz) ≤ 2000
      rw [hpy]
      have hle : (1000:ℚ) / rate_hz ≤ 2000 := by
        rw [div_le_iff₀ hpos]
        linarith
      calc Int.floor ((1000:ℚ) / rate_hz) ≤ Int.floor ((2000:ℚ)) := Int.floor_le_floor hle
        _ = 2000 := by
          rw [show ((2000:ℚ)) = (((2000:Int)):ℚ) by norm_num, Int.floor_intCast]

/-- C10: an out-of-range rate is rejected before any assignment: the setter
raises ValueError and the returned state is exactly the state before the
call. -/
theorem c10_rejection_atomic (st : SensorState) (rate_hz : ℚ)
    (h : ¬ (1/2 ≤ rate_hz ∧ rate_hz ≤ 50)) :
    Sensor.set_poll_rate_hz st rate_hz
      = (Except.error ("rate_hz must be between 0.5 and 50 Hz"), st) := by
  rw [Sensor.set_poll_rate_hz, if_pos h]

/-- Witness for C10 at rate 100 Hz on the freshly initialised state. -/
theorem c10_witness :
    Sensor.set_poll_rate_hz (sensor_init id) 100
      = (Except.error ("rate_hz must be between 0.5 and 50 Hz"), sensor_init id) :=
  c10_rejection_atomic (sensor_init id) 100 (by norm_num)

/-- C8: a successful raw driver reading r is returned as max(0, r - 50),
a non-negative integer; in particular raw 75 becomes 25, which maps to the
hottest colour (255, 0, 0) under the short-range maximum. -/
theorem c8_offset_floored :
    (∀ (sensors : Nat → Option SensorHandle) (c : Nat) (s : SensorHandle) (r : Int),
        sensors c = some s → s.read = Except.ok r →
        RadiozoaSensor.get_distance sensors c = Except.ok (max 0 (r - distance_offset)) ∧
        0 ≤ max 0 (r - distance_offset)) ∧
    RadiozoaSensor.get_distance (fun _ => some ⟨Except.ok 75⟩) 0 = Except.ok 25 ∧
    color_for_distance true (some 25) max_short_range_distance_mm = (255, 0, 0) := by
  refine ⟨?_, by rfl, by decide⟩
  intro sensors c s r hs hr
  simp only [RadiozoaSensor.get_distance, hs, hr]
  exact ⟨trivial, le_max_left 0 (r - distance_offset)⟩

/-- C4 evaluation: the fault branches of get_distance and get_distances
evaluate Sensor.OUT_OF_RANGE in a module that never imports Sensor, so an
absent handle or a raising read propagates NameError instead of returning
the sentinel, and a mid-batch fault aborts the whole batch read. -/
theorem c4_sentinel_name_error :
    RadiozoaSensor.get_distance (fun _ => none) 0
        = Except.error ("NameError: name Sensor is not defined") ∧
    RadiozoaSensor.get_distance (fun _ => some ⟨Except.error ("OSError")⟩) 0
        = Except.error ("NameError: name Sensor is not defined") ∧
    RadiozoaSensor.get_distances (fun c => if c = 0 then none else some ⟨Except.ok 100⟩)
        = Except.error ("NameError: name Sensor is not defined") := by
  refine ⟨by rfl, by rfl, by rfl⟩

/-- C5: with folding enabled, a reading strictly above the variant maximum
yields the same colour as a reading equal to the maximum; a reading at or
below the 50 mm near-field floor yields (255, 0, 0); a reading in between
yields the HSV conversion of hue = (distance / maximum) * 300 at full
saturation and value, a hue never above 300 degrees; distance 0 yields the
maximum-intensity colour. -/
theorem c5_color_mapping (maxd : Int)
    (hmax : maxd = max_short_range_distance_mm ∨ maxd = max_long_range_distance_mm) :
    (∀ d : Int, d > maxd →
       color_for_distance true (some d) maxd = color_for_distance true (some maxd) maxd) ∧
    (∀ d : Int, d ≤ min_distance_mm → color_for_distance true (some d) maxd = (255, 0, 0)) ∧
    (∀ d : Int, min_distance_mm < d → d ≤ maxd →
       color_for_distance true (some d) maxd = hsv_to_rgb ((d : ℚ) / (maxd : ℚ) * 300) 1 1 ∧
       (d : ℚ) / (maxd : ℚ) * 300 ≤ 300) ∧
    color_for_distance true (some 0) maxd = (255, 0, 0) := by
  have hfloor : (50:Int) < maxd := by
    rcases hmax with h | h <;>
      simp [h, max_short_range_distance_mm, max_long_range_distance_mm]
  have hmin : min_distance_mm = (50:Int) := rfl
  have hb : ∀ d : Int, d ≤ min_distance_mm → color_for_distance true (some d) maxd = (255, 0, 0) := by
    intro d hd
    rw [hmin] at hd
    have hnot : ¬ (d > maxd) := by omega
    simp [color_for_distance, hnot, hmin, hd]
  refine ⟨?_, hb, ?_, hb 0 (by rw [hmin]; omega)⟩
  · intro d hd
    simp [color_for_distance, hd, lt_irrefl]
  · intro d hlo hhi
    rw [hmin] at hlo
    have hnot : ¬ (d > maxd) := by omega
    have hnot2 : ¬ (d ≤ min_distance_mm) := by rw [hmin]; omega
    constructor
    · simp [color_for_distance, hnot, hnot2]
    · have hm0 : (0:ℚ) < (maxd : ℚ) := by
        exact_mod_cast lt_trans (by norm_num : (0:Int) < 50) hfloor
      have hdm : (d : ℚ) ≤ (maxd : ℚ) := by exact_mod_cast hhi
      have hr1 : (d : ℚ) / (maxd : ℚ) ≤ 1 := (div_le_one hm0).mpr hdm
      calc (d : ℚ) / (maxd : ℚ) * 300 ≤ 1 * 300 :=
            mul_le_mul_of_nonneg_right hr1 (by norm_num)
        _ = 300 := one_mul 300

/-- Witness for C5 with the short-range maximum: a reading of 2000 mm folds
to the colour of a reading of 1000 mm, and distance 0 yields (255, 0, 0). -/
theorem c5_witness :
    color_for_distance true (some 2000) max_short_range_distance_mm
        = color_for_distance true (some max_short_range_distance_mm)
            max_short_range_distance_mm ∧
    color_for_distance true (some 0) max_short_range_distance_mm = (255, 0, 0) := by
  have h := c5_color_mapping max_short_range_distance_mm (Or.inl rfl)
  exact ⟨h.1 2000 (by norm_num [max_short_range_distance_mm]), h.2.2.2⟩

/-- C6 counterexample: a poll iteration over a device table whose entry at
index 0 carries the unrecognised impl FOO. The ValueError does not terminate
the loop: the iteration returns normally with the error merely logged, and
the enabled flag -- the loop's continuation condition -- still true. -/
theorem c6_counterexample :
    (poll_loop_iteration
        (fun i => if i = 0 then some ⟨0, some ("FOO"), "X0", 0x30, 3⟩ else none)
        (fun i => (i : Int) + 1) (fun s => s)
        (some (fun _ => some ⟨Except.ok 100⟩))
        { enabled := true, poll_delay_ms := 50, return_max_range := true,
          distances := [], distances_fmt := "", distances_packed := "" }).1.enabled
      = true ∧
    (poll_loop_iteration
        (fun i => if i = 0 then some ⟨0, some ("FOO"), "X0", 0x30, 3⟩ else none)
        (fun i => (i : Int) + 1) (fun s => s)
        (some (fun _ => some ⟨Except.ok 100⟩))
        { enabled := true, poll_delay_ms := 50, return_max_range := true,
          distances := [], distances_fmt := "", distances_packed := "" }).2
      = [Event.logError ("ValueError: unrecognised sensor type: FOO")] := by
  constructor <;> rfl

/-- C6 amended: an unrecognised impl raises ValueError which aborts the
remaining per-sensor processing of the current iteration (no colour is
pushed for it or for any later sensor of that iteration), but the
iteration-level except handler catches it, logs it, and leaves the enabled
flag unchanged, so the poll loop proceeds to its next iteration rather than
terminating. -/
theorem c6_unrecognised_variant_recovered :
    (∀ (dbi : Nat → Option Device) (pix : Nat → Int) (pm : String → String)
       (sensors : Nat → Option SensorHandle) (st : SensorState)
       (raw : List Int) (msg : String),
       RadiozoaSensor.get_distances sensors = Except.ok raw →
       (poll_devices dbi pix st.return_max_range raw.enum).2 = some msg →
       (poll_loop_iteration dbi pix pm (some sensors) st).1.enabled = st.enabled ∧
       (poll_loop_iteration dbi pix pm (some sensors) st).2
         = (poll_devices dbi pix st.return_max_range raw.enum).1
             ++ [Event.logError msg]) ∧
    (∀ (dbi : Nat → Option Device) (pix : Nat → Int) (fold : Bool)
       (index : Nat) (dist : Int) (rest : List (Nat × Int)) (dev : Device),
       dbi index = some dev →
       dev.impl ≠ some ("VL53L0X") → dev.impl ≠ some ("VL53L1X") →
       poll_devices dbi pix fold ((index, dist) :: rest)
         = ([], some ("ValueError: unrecognised sensor type: " ++ impl_repr dev.impl))) := by
  constructor
  · intro dbi pix pm sensors st raw msg hraw hpoll
    simp only [poll_loop_iteration, hraw, hpoll]
    constructor <;> trivial
  · intro dbi pix fold index dist rest dev hdev h0 h1
    simp only [poll_devices, hdev, if_neg h0, if_neg h1]

/-- C1: unforced, with the factory address absent and every target address
responding, the top-level configure takes the already-configured branch:
it returns True and its trace holds no pin toggle and no address write. -/
theorem c1_configure_idempotent (bus1 bus2 : Nat → Bool) (env : Nat → DeviceEnv)
    (reconfigRaises : Bool)
    (h1 : bus1 default_i2c_address = false)
    (h2 : ∀ a ∈ sensor_addresses Device.all, bus1 a = true) :
    (Configure.configure false Device.all bus1 reconfigRaises env bus2).1 = true ∧
    List.countP is_pin_set
      (Configure.configure false Device.all bus1 reconfigRaises env bus2).2 = 0 ∧
    List.countP is_addr_write
      (Configure.configure false Device.all bus1 reconfigRaises env bus2).2 = 0 := by
  have hmiss : sensor_missing Device.all bus1 = [] := by
    simp only [sensor_missing, List.filter_eq_nil_iff]
    intro a ha
    simp [h2 a ha]
  have hconf : Configure.configure false Device.all bus1 reconfigRaises env bus2
      = (true, [Event.scan, Event.i2cdetect]) := by
    simp [Configure.configure, Configure.configure_inner, h1, hmiss]
  rw [hconf]
  exact ⟨rfl, rfl, rfl⟩

/-- A bus on which exactly the eight target addresses 0x30..0x37 respond. -/
def configured_bus : Nat → Bool := fun a => decide (0x30 ≤ a ∧ a ≤ 0x37)

/-- A quiet hardware environment for the witnesses. -/
def quiet_env : Nat → DeviceEnv :=
  fun _ => { appears := fun _ => false, createRaises := false, writeRaises := false }

/-- Witness for C1 on the already-configured bus. -/
theorem c1_witness :
    (Configure.configure false Device.all configured_bus false quiet_env
        configured_bus).1 = true :=
  (c1_configure_idempotent configured_bus configured_bus quiet_env false
    (by decide) (by decide)).1

/-- Every device with a sensor slot has its XSHUT pin configured. -/
theorem mem_setup_pins {devices : List Device} {d : Device}
    (hd : d ∈ devices) (himpl : d.impl.isSome = true) :
    d.index ∈ setup_pins devices := by
  simp only [setup_pins]
  exact List.mem_map.mpr ⟨d, List.mem_filter.mpr ⟨hd, himpl⟩, rfl⟩

/-- The shutdown-all phase never raises when every sensor slot has a pin. -/
theorem shutdown_all_ok (pins : List Nat) :
    ∀ devices : List Device,
      (∀ d ∈ devices, d.impl.isSome = true → d.index ∈ pins) →
      ∃ evs, shutdown_all_sensors pins devices = Except.ok evs := by
  intro devices
  induction devices with
  | nil => exact fun _ => ⟨[], rfl⟩
  | cons d rest ih =>
    intro h
    obtain ⟨evs, hevs⟩ := ih (fun x hx => h x (List.mem_cons_of_mem d hx))
    by_cases hi : d.impl.isSome = true
    · have hpin := h d (List.mem_cons_self d rest) hi
      refine ⟨[Event.pinSet d.index false] ++ [Event.sleep 50] ++ evs, ?_⟩
      simp [shutdown_all_sensors, hi, set_xshut, hpin, hevs]
    · have hi2 : d.impl.isSome = false := by
        cases hb : d.impl.isSome
        · rfl
        · exact absurd hb hi
      refine ⟨evs, ?_⟩
      simp only [shutdown_all_sensors, hi2, Bool.false_eq_true, if_false, hevs]

/-- The per-device reprogram body never raises when the device's pin is
configured: an absent sensor, an unknown impl, a raising driver creation
and a raising bus write are all handled inside it. -/
theorem configure_one_ok (pins : List Nat) (e : DeviceEnv) (d : Device)
    (h : d.impl.isSome = true → d.index ∈ pins) :
    ∃ evs, configure_one_device pins e d = Except.ok evs := by
  obtain ⟨idx, impl0, label, addr, pin⟩ := d
  cases impl0 with
  | none => exact ⟨[], rfl⟩
  | some impl =>
    have hpin : idx ∈ pins := h rfl
    simp only [configure_one_device, set_xshut, if_pos hpin]
    cases hf : (poll_for_default e.appears 5 0).2
    · simp [hf]
    · by_cases himp : impl = "VL53L0X" ∨ impl = "VL53L1X"
      · cases hc : e.createRaises
        · cases hw : set_i2c_address e (some impl) addr
          · simp [himp, hc, hw]
          · simp [himp, hc, hw]
        · simp [himp, hc]
      · simp [himp]

/-- The sequential reprogram phase never raises when every sensor slot has
a pin. -/
theorem configure_addresses_ok (pins : List Nat) (env : Nat → DeviceEnv) :
    ∀ devices : List Device,
      (∀ d ∈ devices, d.impl.isSome = true → d.index ∈ pins) →
      ∃ evs, configure_sensor_addresses pins env devices = Except.ok evs := by
  intro devices
  induction devices with
  | nil => exact fun _ => ⟨[], rfl⟩
  | cons d rest ih =>
    intro h
    obtain ⟨evs1, he1⟩ := configure_one_ok pins (env d.index) d
      (h d (List.mem_cons_self d rest))
    obtain ⟨evs2, he2⟩ := ih (fun x hx => h x (List.mem_cons_of_mem d hx))
    exact ⟨evs1 ++ evs2, by simp only [configure_sensor_addresses, he1, he2]⟩

/-- RadiozoaConfig.configure never raises: its pins are set up from the
same table it iterates over. -/
theorem radiozoa_configure_ok (env : Nat → DeviceEnv) (devices : List Device) :
    ∃ evs, RadiozoaConfig.configure env devices = Except.ok evs := by
  have hp : ∀ d ∈ devices, d.impl.isSome = true → d.index ∈ setup_pins devices :=
    fun d hd hi => mem_setup_pins hd hi
  obtain ⟨e1, h1⟩ := shutdown_all_ok (setup_pins devices) devices hp
  obtain ⟨e2, h2⟩ := configure_addresses_ok (setup_pins devices) env devices hp
  exact ⟨e1 ++ e2, by simp only [RadiozoaConfig.configure, h1, h2]⟩

/-- C2: the top-level configure never propagates an exception -- it is a
total function into a boolean result -- and returns True exactly when the
run's verification scan shows the factory address absent and every device's
target address present, or the bus was already in that state unforced; on a
verification failure with missing addresses, the missing list is logged. -/
theorem c2_configure_contract (force : Bool) (bus1 bus2 : Nat → Bool)
    (reconfigRaises : Bool) (env : Nat → DeviceEnv) :
    ((Configure.configure force Device.all bus1 reconfigRaises env bus2).1 = true ↔
      ((force = false ∧ bus1 default_i2c_address = false ∧
          sensor_missing Device.all bus1 = []) ∨
       ((force = true ∨ bus1 default_i2c_address = true ∨
           sensor_missing Device.all bus1 ≠ []) ∧
        reconfigRaises = false ∧ bus2 default_i2c_address = false ∧
        sensor_missing Device.all bus2 = []))) ∧
    ((force = true ∨ bus1 default_i2c_address = true ∨
        sensor_missing Device.all bus1 ≠ []) →
      reconfigRaises = false → bus2 default_i2c_address = false →
      sensor_missing Device.all bus2 ≠ [] →
      Event.logMissing (sensor_missing Device.all bus2)
        ∈ (Configure.configure force Device.all bus1 reconfigRaises env bus2).2) := by
  by_cases hc : force = true ∨ bus1 default_i2c_address = true ∨
      sensor_missing Device.all bus1 ≠ []
  · by_cases hr : reconfigRaises = true
    · have hres : Configure.configure force Device.all bus1 reconfigRaises env bus2
          = (false, []) := by
        simp only [Configure.configure, Configure.configure_inner]
        rw [if_pos hc]
        simp [hr]
      constructor
      · rw [hres]
        simp only [Bool.false_eq_true, false_iff]
        rintro (⟨hf, hb, hm⟩ | ⟨_, hrf, _, _⟩)
        · rcases hc with h | h | h
          · rw [hf] at h
            exact absurd h (by simp)
          · rw [hb] at h
            exact absurd h (by simp)
          · exact h hm
        · rw [hr] at hrf
          exact absurd hrf (by simp)
      · intro _ hrf _ _
        rw [hr] at hrf
        exact absurd hrf (by simp)
    · have hrf : reconfigRaises = false := by
        cases hrc : reconfigRaises
        · rfl
        · exact absurd hrc hr
      obtain ⟨evs, hevs⟩ := radiozoa_configure_ok env Device.all
      by_cases hb2 : bus2 default_i2c_address = true
      · have hres : Configure.configure force Device.all bus1 reconfigRaises env bus2
            = (false, Event.scan :: Event.i2cdetect :: evs
                ++ [Event.sleep 1000, Event.scan, Event.i2cdetect]) := by
          simp only [Configure.configure, Configure.configure_inner]
          rw [if_pos hc]
          simp [hrf, hevs, hb2]
        constructor
        · rw [hres]
          simp only [Bool.false_eq_true, false_iff]
          rintro (⟨hf, hb, hm⟩ | ⟨_, _, hb2f, _⟩)
          · rcases hc with h | h | h
            · rw [hf] at h
              exact absurd h (by simp)
            · rw [hb] at h
              exact absurd h (by simp)
            · exact h hm
          · exact absurd hb2 (by simp [hb2f])
        · intro _ _ hb2f _
          exact absurd hb2 (by simp [hb2f])
      · have hb2f : bus2 default_i2c_address = false := by
          cases hbv : bus2 default_i2c_address
          · rfl
          · exact absurd hbv hb2
        by_cases hm2 : sensor_missing Device.all bus2 = []
        · have hres : Configure.configure force Device.all bus1 reconfigRaises env bus2
              = (true, Event.scan :: Event.i2cdetect :: evs
                  ++ [Event.sleep 1000, Event.scan, Event.i2cdetect]) := by
            simp only [Configure.configure, Configure.configure_inner]
            rw [if_pos hc]
            simp [hrf, hevs, hb2f, hm2]
          constructor
          · rw [hres]
            constructor
            · intro _
              exact Or.inr ⟨hc, hrf, hb2f, hm2⟩
            · intro _
              rfl
          · intro _ _ _ hm2n
            exact absurd hm2 hm2n
        · have hres : Configure.configure force Device.all bus1 reconfigRaises env bus2
              = (false, Event.scan :: Event.i2cdetect :: evs
                  ++ [Event.sleep 1000, Event.scan,
                      Event.logMissing (sensor_missing Device.all bus2),
                      Event.i2cdetect]) := by
            simp only [Configure.configure, Configure.configure_inner]
            rw [if_pos hc]
            simp [hrf, hevs, hb2f, hm2]
          constructor
          · rw [hres]
            simp only [Bool.false_eq_true, false_iff]
            rintro (⟨hf, hb, hm⟩ | ⟨_, _, _, hm2e⟩)
            · rcases hc with h | h | h
              · rw [hf] at h
                exact absurd h (by simp)
              · rw [hb] at h
                exact absurd h (by simp)
              · exact h hm
            · exact hm2 hm2e
          · intro _ _ _ _
            rw [hres]
            simp
  · have hres : Configure.configure force Device.all bus1 reconfigRaises env bus2
        = (true, [Event.scan, Event.i2cdetect]) := by
      simp only [Configure.configure, Configure.configure_inner]
      rw [if_neg hc]
    push_neg at hc
    obtain ⟨hf, hb, hm⟩ := hc
    constructor
    · rw [hres]
      constructor
      · intro _
        exact Or.inl ⟨Bool.eq_false_iff.mpr hf, Bool.eq_false_iff.mpr hb, hm⟩
      · intro _
        rfl
    · intro hcc
      rcases hcc with h | h | h
      · exact absurd h hf
      · exact absurd h hb
      · exact absurd hm h

/-- Every event of the retry loop's trace is a 750 ms delay or a scan. -/
theorem poll_mem (a : Nat → Bool) :
    ∀ fuel i, ∀ ev ∈ (poll_for_default a fuel i).1,
      ev = Event.sleep 750 ∨ ev = Event.scan := by
  intro fuel
  induction fuel with
  | zero =>
    intro i ev h
    simp [poll_for_default] at h
  | succ n ih =>
    intro i ev h
    rw [poll_for_default] at h
    by_cases ha : a i = true
    · rw [if_pos ha] at h
      simp at h
      rcases h with h | h
      · exact Or.inl h
      · exact Or.inr h
    · rw [if_neg ha] at h
      simp at h
      rcases h with h | h | h
      · exact Or.inl h
      · exact Or.inr h
      · exact ih (i + 1) ev h

/-- The retry loop scans at most `fuel` times, one scan per 750 ms delay. -/
theorem poll_counts (a : Nat → Bool) :
    ∀ fuel i, List.countP is_scan_event (poll_for_default a fuel i).1 ≤ fuel ∧
      List.countP is_scan_event (poll_for_default a fuel i).1
        = List.countP is_sleep750 (poll_for_default a fuel i).1 := by
  intro fuel
  induction fuel with
  | zero =>
    intro i
    simp [poll_for_default]
  | succ n ih =>
    intro i
    have e1 : is_scan_event (Event.sleep 750) = false := rfl
    have e2 : is_scan_event Event.scan = true := rfl
    have e3 : is_sleep750 (Event.sleep 750) = true := rfl
    have e4 : is_sleep750 Event.scan = false := rfl
    by_cases ha : a i = true
    · have hp : (poll_for_default a (n + 1) i).1 = [Event.sleep 750, Event.scan] := by
        rw [poll_for_default, if_pos ha]
      rw [hp]
      constructor
      · simp [List.countP_cons, e1, e2]
      · simp [List.countP_cons, e1, e2, e3, e4]
    · obtain ⟨h1, h2⟩ := ih (i + 1)
      have hp : (poll_for_default a (n + 1) i).1
          = Event.sleep 750 :: Event.scan :: (poll_for_default a n (i + 1)).1 := by
        rw [poll_for_default, if_neg ha]
      rw [hp]
      simp only [List.countP_cons, e1, e2, e3, e4]
      constructor
      · simp
        omega
      · simp
        omega

/-- The retry loop's found flag is true exactly when some attempt within
the bound observes the factory address. -/
theorem poll_found_iff (a : Nat → Bool) :
    ∀ fuel i, (poll_for_default a fuel i).2 = true ↔
      ∃ j, i ≤ j ∧ j < i + fuel ∧ a j = true := by
  intro fuel
  induction fuel with
  | zero =>
    intro i
    simp only [poll_for_default]
    constructor
    · intro h
      exact absurd h (by simp)
    · rintro ⟨j, h1, h2, _⟩
      omega
  | succ n ih =>
    intro i
    by_cases ha : a i = true
    · simp only [poll_for_default, if_pos ha]
      constructor
      · intro _
        exact ⟨i, le_refl i, by omega, ha⟩
      · intro _
        trivial
    · simp only [poll_for_default, if_neg ha]
      have ha2 : a i = false := by
        cases hv : a i
        · rfl
        · exact absurd hv ha
      rw [show (Event.sleep 750 :: Event.scan :: (poll_for_default a n (i + 1)).1,
            (poll_for_default a n (i + 1)).2).2 = (poll_for_default a n (i + 1)).2 from rfl]
      rw [ih (i + 1)]
      constructor
      · rintro ⟨j, h1, h2, h3⟩
        exact ⟨j, by omega, by omega, h3⟩
      · rintro ⟨j, h1, h2, h3⟩
        rcases Nat.eq_or_lt_of_le h1 with h | h
        · rw [← h] at h3
          rw [ha2] at h3
          exact absurd h3 (by simp)
        · exact ⟨j, by omega, by omega, h3⟩

/-- What C3 requires of the trace of one device's bring-up attempt, under
that device's hardware environment: at most five scans, one scan per fixed
750 ms delay; a device never observed at 0x29 is marked failed by a warning
and gets no address write; a raising bus write is logged. -/
def device_trace_ok (e : DeviceEnv) (d : Device) (t : List Event) : Prop :=
  List.countP is_scan_event t ≤ 5 ∧
  List.countP is_scan_event t = List.countP is_sleep750 t ∧
  ((∀ j, j < 5 → e.appears j = false) →
    Event.logWarning (d.label ++ " did not appear at 0x29") ∈ t ∧
    List.countP is_addr_write t = 0) ∧
  ((∃ j, j < 5 ∧ e.appears j = true) → e.createRaises = false →
    e.writeRaises = true →
    Event.logError ("OSError during i2c write") ∈ t)

/-- Scan and delay counts of a bring-up trace built around one retry loop:
the pin event and any scan-free suffix leave the retry loop's counts. -/
theorem trace_counts_aux (e : DeviceEnv) (idx : Nat) (suffix : List Event)
    (hs1 : List.countP is_scan_event suffix = 0)
    (hs2 : List.countP is_sleep750 suffix = 0) :
    List.countP is_scan_event
        ([Event.pinSet idx true] ++ (poll_for_default e.appears 5 0).1 ++ suffix) ≤ 5 ∧
    List.countP is_scan_event
        ([Event.pinSet idx true] ++ (poll_for_default e.appears 5 0).1 ++ suffix)
      = List.countP is_sleep750
        ([Event.pinSet idx true] ++ (poll_for_default e.appears 5 0).1 ++ suffix) := by
  obtain ⟨hcount, hceq⟩ := poll_counts e.appears 5 0
  have a1 : is_scan_event (Event.pinSet idx true) = false := rfl
  have a2 : is_sleep750 (Event.pinSet idx true) = false := rfl
  simp only [List.countP_append, List.countP_cons, List.countP_nil, a1, a2, hs1, hs2]
  simp only [Bool.false_eq_true, if_false]
  omega

/-- The trace of one VL53L1X device's bring-up attempt satisfies
device_trace_ok whatever the hardware environment does. -/
theorem configure_one_device_trace (pins : List Nat) (e : DeviceEnv) (d : Device)
    (hpin : d.index ∈ pins) (himpl : d.impl = some ("VL53L1X")) :
    ∃ t, configure_one_device pins e d = Except.ok t ∧ device_trace_ok e d t := by
  have hmem := poll_mem e.appears 5 0
  have hfound := poll_found_iff e.appears 5 0
  have hpaw : List.countP is_addr_write (poll_for_default e.appears 5 0).1 = 0 := by
    rw [List.countP_eq_zero]
    intro ev hev
    rcases hmem ev hev with h | h <;> rw [h] <;> simp [is_addr_write]
  have himp : ("VL53L1X" = "VL53L0X" ∨ "VL53L1X" = "VL53L1X") := Or.inr rfl
  cases hf : (poll_for_default e.appears 5 0).2
  case false =>
    have hcontr : (∃ j, j < 5 ∧ e.appears j = true) → False := by
      rintro ⟨j, hj, hv⟩
      have : (poll_for_default e.appears 5 0).2 = true :=
        hfound.mpr ⟨j, Nat.zero_le j, by omega, hv⟩
      rw [hf] at this
      exact absurd this (by simp)
    refine ⟨[Event.pinSet d.index true] ++ (poll_for_default e.appears 5 0).1
        ++ [Event.logWarning (d.label ++ " did not appear at 0x29")], ?_, ?_⟩
    · simp [configure_one_device, himpl, set_xshut, hpin, hf]
    · obtain ⟨hc1, hc2⟩ := trace_counts_aux e d.index
        [Event.logWarning (d.label ++ " did not appear at 0x29")] rfl rfl
      refine ⟨hc1, hc2, ?_, ?_⟩
      · intro _
        constructor
        · simp
        · have b1 : is_addr_write (Event.pinSet d.index true) = false := rfl
          have b2 : is_addr_write
              (Event.logWarning (d.label ++ " did not appear at 0x29")) = false := rfl
          simp only [List.countP_append, List.countP_cons, List.countP_nil, b1, b2, hpaw]
          simp
      · intro hex _ _
        exact absurd hex hcontr
  case true =>
    have hnever : (∀ j, j < 5 → e.appears j = false) → False := by
      intro hnever
      obtain ⟨j, hj0, hj5, hv⟩ := hfound.mp hf
      rw [hnever j (by omega)] at hv
      exact absurd hv (by simp)
    cases hcr : e.createRaises
    case true =>
      refine ⟨[Event.pinSet d.index true] ++ (poll_for_default e.appears 5 0).1
          ++ [Event.logError ("exception creating sensor"), Event.sleep 250], ?_, ?_⟩
      · simp [configure_one_device, himpl, set_xshut, hpin, hf, hcr, himp]
      · obtain ⟨hc1, hc2⟩ := trace_counts_aux e d.index
          [Event.logError ("exception creating sensor"), Event.sleep 250] rfl rfl
        refine ⟨hc1, hc2, ?_, ?_⟩
        · intro hn
          exact absurd hn hnever
        · intro _ hcf _
          rw [hcr] at hcf
          exact absurd hcf (by simp)
    case false =>
      cases hw : e.writeRaises
      case true =>
        have hseta : set_i2c_address e (some ("VL53L1X")) d.i2c_address
            = Except.error ("OSError during i2c write") := by
          simp [set_i2c_address, hw]
        refine ⟨[Event.pinSet d.index true] ++ (poll_for_default e.appears 5 0).1
            ++ [Event.logError ("OSError during i2c write"), Event.sleep 250], ?_, ?_⟩
        · simp [configure_one_device, himpl, set_xshut, hpin, hf, hcr, himp, hseta]
        · obtain ⟨hc1, hc2⟩ := trace_counts_aux e d.index
            [Event.logError ("OSError during i2c write"), Event.sleep 250] rfl rfl
          refine ⟨hc1, hc2, ?_, ?_⟩
          · intro hn
            exact absurd hn hnever
          · intro _ _ _
            simp
      case false =>
        have hseta : set_i2c_address e (some ("VL53L1X")) d.i2c_address
            = Except.ok [Event.addrWrite ("VL53L1X") d.i2c_address, Event.sleep 50] := by
          simp [set_i2c_address, hw]
        refine ⟨[Event.pinSet d.index true] ++ (poll_for_default e.appears 5 0).1
            ++ [Event.addrWrite ("VL53L1X") d.i2c_address, Event.sleep 50]
            ++ [Event.sleep 250], ?_, ?_⟩
        · simp [configure_one_device, himpl, set_xshut, hpin, hf, hcr, himp, hseta]
        · have hc := trace_counts_aux e d.index
            ([Event.addrWrite ("VL53L1X") d.i2c_address, Event.sleep 50]
              ++ [Event.sleep 250]) rfl rfl
          rw [← List.append_assoc] at hc
          obtain ⟨hc1, hc2⟩ := hc
          refine ⟨hc1, hc2, ?_, ?_⟩
          · intro hn
            exact absurd hn hnever
          · intro _ _ hwt
            rw [hw] at hwt
            exact absurd hwt (by simp)

/-- C3: for every hardware environment, the sequential reprogram phase
returns normally with one trace per registry device, in table order -- no
environment aborts the sequence -- and every device's trace polls at most
5 times at fixed 750 ms spacing, marks a never-appearing device failed with
a warning and no address write, and logs a raising bus write. -/
theorem c3_bounded_bringup (env : Nat → DeviceEnv) :
    ∃ t0 t1 t2 t3 t4 t5 t6 t7 : List Event,
      configure_sensor_addresses (setup_pins Device.all) env Device.all
        = Except.ok (t0 ++ t1 ++ t2 ++ t3 ++ t4 ++ t5 ++ t6 ++ t7) ∧
      device_trace_ok (env N0.index) N0 t0 ∧
      device_trace_ok (env NE1.index) NE1 t1 ∧
      device_trace_ok (env E2.index) E2 t2 ∧
      device_trace_ok (env SE3.index) SE3 t3 ∧
      device_trace_ok (env S4.index) S4 t4 ∧
      device_trace_ok (env SW5.index) SW5 t5 ∧
      device_trace_ok (env W6.index) W6 t6 ∧
      device_trace_ok (env NW7.index) NW7 t7 := by
  obtain ⟨t0, h0, p0⟩ := configure_one_device_trace (setup_pins Device.all)
    (env N0.index) N0 (by decide) rfl
  obtain ⟨t1, h1, p1⟩ := configure_one_device_trace (setup_pins Device.all)
    (env NE1.index) NE1 (by decide) rfl
  obtain ⟨t2, h2, p2⟩ := configure_one_device_trace (setup_pins Device.all)
    (env E2.index) E2 (by decide) rfl
  obtain ⟨t3, h3, p3⟩ := configure_one_device_trace (setup_pins Device.all)
    (env SE3.index) SE3 (by decide) rfl
  obtain ⟨t4, h4, p4⟩ := configure_one_device_trace (setup_pins Device.all)
    (env S4.index) S4 (by decide) rfl
  obtain ⟨t5, h5, p5⟩ := configure_one_device_trace (setup_pins Device.all)
    (env SW5.index) SW5 (by decide) rfl
  obtain ⟨t6, h6, p6⟩ := configure_one_device_trace (setup_pins Device.all)
    (env W6.index) W6 (by decide) rfl
  obtain ⟨t7, h7, p7⟩ := configure_one_device_trace (setup_pins Device.all)
    (env NW7.index) NW7 (by decide) rfl
  refine ⟨t0, t1, t2, t3, t4, t5, t6, t7, ?_, p0, p1, p2, p3, p4, p5, p6, p7⟩
  have hall : configure_sensor_addresses (setup_pins Device.all) env Device.all
      = configure_sensor_addresses (setup_pins Device.all) env
          [N0, NE1, E2, SE3, S4, SW5, W6, NW7] := rfl
  rw [hall]
  simp only [configure_sensor_addresses, h0, h1, h2, h3, h4, h5, h6, h7,
    List.append_assoc, List.append_nil]
